import Mathlib

/-!
Shallow embedding of `IMPPAT.py`, a scraper that collects phytochemical
identifiers, CIDs, SMILES strings and 3D structure files for a medicinal
plant, and writes them to a formatted spreadsheet.

Network effects are modelled by an explicit environment `Env` that maps each
request the program can make to the response the remote servers would give.
Parsed HTML is modelled abstractly: a detail page is a flattened list of
nodes in document order (text nodes, anchors, other elements), which is what
the program's BeautifulSoup queries (`find(string=...)`, `find_next('a')`)
observe; a listing page is its HTTP status plus the optional first `<table>`,
given as rows of stripped-text cells, which is what
`soup.find('table')` / `find_all('tr')` / `find_all('td')` observe.
The spreadsheet written by `save_to_excel` is modelled as a list of rows of
cells, row `i` of the sheet being list index `i - 1`; a cell carries its
value, fill color, hyperlink target and named style, the attributes the
program sets.
-/

namespace IMPPAT

/-- Nodes of a parsed detail page, flattened in document order: text nodes
(BeautifulSoup `NavigableString`s), `<a>` elements with their text, and any
other element. -/
inductive Node where
  | text (s : String)
  | anchor (s : String)
  | other
deriving DecidableEq

/-- A parsed detail page: its nodes in document order. -/
def HtmlDoc := List Node

instance : DecidableEq HtmlDoc := inferInstanceAs (DecidableEq (List Node))

/-- Embeds `soup.find(string=s)` followed by traversal of what comes after:
finds the first text node equal to `s` and returns the remaining document
(the nodes after it, in document order), `none` if no text node equals `s`. -/
def findAfterString (doc : List Node) (s : String) : Option (List Node) :=
  match doc with
  | [] => none
  | .text t :: rest => if t = s then some rest else findAfterString rest s
  | _ :: rest => findAfterString rest s

/-- Embeds `.find_next('a')` from a position: the text of the first anchor
among the nodes after that position, in document order. -/
def firstAnchor : List Node → Option String
  | [] => none
  | .anchor t :: _ => some t
  | _ :: rest => firstAnchor rest

/-- Embeds `re.search(r'CID:(\d+)', text)` over the characters of `text`:
scans positions left to right for the literal `CID:` followed by at least one
digit, and returns the maximal digit run after the first such occurrence. -/
def cidSearchChars : List Char → Option String
  | [] => none
  | c :: rest =>
    if c = 'C' then
      match rest with
      | 'I' :: 'D' :: ':' :: tl =>
        let ds := tl.takeWhile Char.isDigit
        if ds.isEmpty then cidSearchChars rest else some (String.mk ds)
      | _ => cidSearchChars rest
    else cidSearchChars rest

/-- Embeds `re.search(r'CID:(\d+)', s)`, returning group 1 of the leftmost
match, `none` when the pattern does not occur in `s`. -/
def cidSearch (s : String) : Option String := cidSearchChars s.data

/-- Responses of the remote servers, one field per kind of request the
program makes. `listingStatus`/`listingTable` describe the listing page for
the one plant of the run (`soup.find('table')` parsed into rows of stripped
cell texts, `none` when the page has no table); the remaining fields are
keyed by the path parameter of the request (`identifier` or `cid`). -/
structure Env where
  listingStatus : Nat
  listingTable : Option (List (List String))
  detailStatus : String → Nat
  detailDoc : String → List Node
  pubchemStatus : String → Nat
  pubchemText : String → String
  structStatus : String → Nat
  structBody : String → String

/-- Embeds Python's `str.strip()` (no arguments): removes leading and
trailing whitespace characters. -/
def pyStrip (s : String) : String :=
  String.mk (((s.data.dropWhile Char.isWhitespace).reverse.dropWhile
    Char.isWhitespace).reverse)

/-- The fixed label whose following anchor holds the CID on a detail page. -/
def extLabel : String := "External chemical identifiers:"

/-- URL of the detail page for an identifier
(`https://cb.imsc.res.in/imppat/phytochemical-detailedpage/{identifier}`). -/
def detailPageUrl (identifier : String) : String :=
  "https://cb.imsc.res.in/imppat/phytochemical-detailedpage/" ++ identifier

/-- Embeds `extract_cid`: on a non-200 detail-page response returns `none`;
otherwise locates the text node equal to `extLabel`, the first anchor after
it, and the `CID:<digits>` pattern in the anchor's stripped text, returning
the digit string, or `none` when the label, anchor or pattern is absent. -/
def extract_cid (env : Env) (identifier : String) : Option String :=
  if env.detailStatus identifier ≠ 200 then none
  else
    match findAfterString (env.detailDoc identifier) extLabel with
    | none => none
    | some rest =>
      match firstAnchor rest with
      | none => none
      | some t => cidSearch (pyStrip t)

/-- Embeds `get_smiles_from_pubchem`: `"N/A"` on a non-200 PubChem response,
otherwise the response body with surrounding whitespace stripped. -/
def get_smiles_from_pubchem (env : Env) (cid : String) : String :=
  if env.pubchemStatus cid ≠ 200 then "N/A"
  else pyStrip (env.pubchemText cid)

/-- A file write performed by the program: destination path and bytes. -/
structure FileWrite where
  path : String
  content : String
deriving DecidableEq

/-- Embeds `os.path.join(a, b)` for the forward-slash paths the program
builds: `a + "/" + b`, except that an empty `a` or one already ending in a
separator is not given another separator. -/
def pathJoin (a b : String) : String :=
  if a = "" then b
  else if a.data.getLast? = some '/' then a ++ b
  else a ++ "/" ++ b

/-- Embeds `download_structure`: on a 200 response, writes the response
bytes to `<identifier>_3D.mol` inside `structure_folder` and returns
`"Downloaded"`; on any other status returns `"Not found"` and writes
nothing. The returned pair is (status string, optional file write). -/
def download_structure (env : Env) (identifier structure_folder : String) :
    String × Option FileWrite :=
  if env.structStatus identifier = 200 then
    ("Downloaded",
      some ⟨pathJoin structure_folder (identifier ++ "_3D.mol"),
            env.structBody identifier⟩)
  else
    ("Not found", none)

/-- Base URL of a listing page, before the plant-name suffix
(`https://cb.imsc.res.in/imppat/phytochemical/`). -/
def plantBase : String := "https://cb.imsc.res.in/imppat/phytochemical/"

/-- Embeds Python's `plant_name.replace(' ', '%20')`: each space character
becomes `%20`, every other character is kept unchanged. -/
def pyReplaceSpace (s : String) : String :=
  String.join (s.data.map fun c => if c = ' ' then "%20" else String.singleton c)

/-- Embeds the listing-page URL built by `search_plant`:
`plantBase` followed by the plant name with spaces replaced by `%20`. -/
def plantPageUrl (plant_name : String) : String :=
  plantBase ++ pyReplaceSpace plant_name

/-- Characters allowed to stand unencoded in a URL path segment
(RFC 3986 unreserved characters, sub-delims, and `:` `@` `/`); everything
else — space, `#`, `%`, `?`, `"`, `<`, `>`, control and non-ASCII
characters — requires percent-encoding. `Char.ofNat 39` is the apostrophe. -/
def allowedInPath (c : Char) : Bool :=
  c.isAlphanum ||
    c ∈ ['-', '.', '_', '~', '!', '$', '&', '(', ')', '*', '+', ',', ';',
         '=', ':', '@', '/', Char.ofNat 39]

/-- States when a character of a plant name requires percent-encoding in the
request URL: exactly when it is not allowed to stand unencoded in a path. -/
def requiresPercentEncoding (c : Char) : Bool := !(allowedInPath c)

/-- Uppercase hexadecimal digit for `n < 16`. -/
def hexDigit (n : Nat) : Char :=
  if n < 10 then Char.ofNat (48 + n) else Char.ofNat (55 + n)

/-- Percent-encoding of a character in the ASCII range: `%` followed by two
uppercase hex digits of its code point. -/
def percentEncodeChar (c : Char) : String :=
  String.mk ['%', hexDigit (c.toNat / 16 % 16), hexDigit (c.toNat % 16)]

/-- Modelled from the spec: full URL-encoding of the plant name
("`<urlencoded plant name>`", "every character requiring percent-encoding in
the name is encoded"): each character requiring percent-encoding is replaced
by its percent-encoding, the rest are kept. The source instead performs only
`pyReplaceSpace`; the two are compared in the C8 theorems. -/
def urlencodeSpec (s : String) : String :=
  String.join (s.data.map fun c =>
    if requiresPercentEncoding c then percentEncodeChar c else String.singleton c)

/-- Embeds one iteration of `search_plant`'s row loop: a listing row with at
least 4 columns has its identifier (3rd column) and name (4th column) taken;
the CID is looked up on the detail page, and — Python's `if cid:` — only a
non-`None`, non-empty CID lets the row proceed to SMILES lookup, structure
download and output; otherwise the row produces nothing. -/
def processListingRow (env : Env) (structure_folder : String)
    (cols : List String) : Option (List String) :=
  if 3 < cols.length then
    let identifier := pyStrip (cols.getD 2 "")
    let phytochemical_name := pyStrip (cols.getD 3 "")
    match extract_cid env identifier with
    | none => none
    | some cid =>
      if cid = "" then none
      else
        let smiles := get_smiles_from_pubchem env cid
        let structure_status := (download_structure env identifier structure_folder).1
        let hyperlink :=
          if structure_status = "Not found" then detailPageUrl identifier else ""
        some [identifier, phytochemical_name, cid, smiles, structure_status, hyperlink]
  else none

/-- Embeds `search_plant`: `[]` on a non-200 listing response or when the
page has no table; otherwise processes the table's rows after the header row
in document order, collecting the rows `processListingRow` produces. -/
def search_plant (env : Env) (plant_name structure_folder : String) :
    List (List String) :=
  if env.listingStatus ≠ 200 then []
  else
    match env.listingTable with
    | none => []
    | some t => (t.drop 1).filterMap (processListingRow env structure_folder)

/-- Values a spreadsheet cell can hold in this program: a string, a number
(the serial numbers and summary counts), or nothing (an untouched cell). -/
inductive CellVal where
  | str (s : String)
  | num (n : Nat)
  | empty
deriving DecidableEq

/-- A spreadsheet cell: its value plus the attributes `save_to_excel` sets
(fill color, hyperlink target, named style). -/
structure Cell where
  value : CellVal
  fill : Option String
  hyperlink : Option CellVal
  style : Option String
deriving DecidableEq

/-- A cell holding `v` with no fill, hyperlink or style, as `df.to_excel`
writes them. -/
def plainCell (v : CellVal) : Cell := ⟨v, none, none, none⟩

/-- Default cell for out-of-range lookups (an untouched empty cell). -/
def emptyCell : Cell := plainCell .empty

/-- The column headers passed to `pd.DataFrame(..., columns=[...])`, in
order. -/
def headerNames : List String :=
  ["Sl No", "Phytochemical Identifier", "Phytochemical Name", "CID",
   "Canonical SMILES", "Structure", "Hyperlink"]

/-- Row 1 of the sheet as `df.to_excel` writes it: the headers. -/
def headerCellRow : List Cell := headerNames.map (fun s => plainCell (.str s))

/-- Data row for 0-based input index `i`: the serial number `i + 1` (from
`data_with_slno = [[i+1] + row ...]`) followed by the row's six string
fields. -/
def dataRowCells (i : Nat) (row : List String) : List Cell :=
  plainCell (.num (i + 1)) :: row.map (fun s => plainCell (.str s))

/-- The data rows of the sheet, input index `i` onwards (sheet rows
`i + 2` onwards). -/
def dataCellRows (i : Nat) : List (List String) → List (List Cell)
  | [] => []
  | r :: rs => dataRowCells i r :: dataCellRows (i + 1) rs

/-- The sheet as `df.to_excel` leaves it: header row then one row per input
row, in input order. -/
def sheetAfterToExcel (data : List (List String)) : List (List Cell) :=
  headerCellRow :: dataCellRows 0 data

/-- Applies `f` to the cell at 0-based index `n` of a row, leaving the row
unchanged when it has no such cell. -/
def updateAt (n : Nat) (f : Cell → Cell) : List Cell → List Cell
  | [] => []
  | c :: cs =>
    match n with
    | 0 => f c :: cs
    | m + 1 => c :: updateAt m f cs

/-- Embeds `ws.iter_rows(min_row=2, max_row=ws.max_row, ...)` with a per-cell
update: applies `f` to every row after the header row. -/
def onDataRows (f : List Cell → List Cell) : List (List Cell) → List (List Cell)
  | [] => []
  | h :: t => h :: t.map f

/-- Embeds the fill branch of the first `iter_rows` loop: green fill
`92D050` on a Structure cell equal to `"Downloaded"`, red fill `FF3300`
otherwise. -/
def applyFill (c : Cell) : Cell :=
  if c.value = CellVal.str "Downloaded" then { c with fill := some "92D050" }
  else { c with fill := some "FF3300" }

/-- Python truthiness of a cell value, for `if cell.value:`: an empty
string, zero and an empty cell are falsy. -/
def pyTruthyCell (v : CellVal) : Bool :=
  match v with
  | .str s => !(s == "")
  | .num n => !(n == 0)
  | .empty => false

/-- Embeds the body of the second `iter_rows` loop: when the Hyperlink
cell's value is truthy, the cell's hyperlink is set to that value, its value
becomes `"Link"` and its style `"Hyperlink"`; otherwise the cell is left
alone. -/
def applyHyperlink (c : Cell) : Cell :=
  if pyTruthyCell c.value then
    { c with hyperlink := some c.value, value := CellVal.str "Link",
             style := some "Hyperlink" }
  else c

/-- Structure-column (column 6, 0-based cell index 5) value of a sheet
row. -/
def structCellValue (row : List Cell) : CellVal := (row.getD 5 emptyCell).value

/-- Embeds `save_to_excel`: writes header plus serial-numbered data rows,
fills the Structure column (counting `"Downloaded"` cells and the others),
turns truthy Hyperlink cells into `"Link"` hyperlinks, and then — since
`summary_row = ws.max_row + 2` — writes the three summary rows starting two
rows below the last used row, leaving one blank row in between. The result
is the final sheet, row `i` at list index `i - 1`. -/
def save_to_excel (data : List (List String)) : List (List Cell) :=
  let sheet0 := sheetAfterToExcel data
  let downloaded_count :=
    (sheet0.drop 1).countP (fun r => decide (structCellValue r = CellVal.str "Downloaded"))
  let not_found_count :=
    (sheet0.drop 1).countP (fun r => !decide (structCellValue r = CellVal.str "Downloaded"))
  let sheet1 := onDataRows (updateAt 5 applyFill) sheet0
  let sheet2 := onDataRows (updateAt 6 applyHyperlink) sheet1
  let total_compounds := downloaded_count + not_found_count
  sheet2 ++
    [[],
     [plainCell (.str "No of compounds downloaded:"), plainCell (.num downloaded_count)],
     [plainCell (.str "No of missing compounds:"), plainCell (.num not_found_count)],
     [plainCell (.str "Total no of compounds:"), plainCell (.num total_compounds)]]

/-- Decides whether `search_plant`'s loop keeps a listing row: the row has
at least 4 columns and the CID extracted for its identifier is non-`None`
and non-empty (Python's `if cid:`). -/
def keptRow (env : Env) (cols : List String) : Bool :=
  decide (3 < cols.length) &&
    match extract_cid env (pyStrip (cols.getD 2 "")) with
    | none => false
    | some cid => !(cid == "")

/-- Count of data rows whose Structure field (0-based index 4) is
`"Downloaded"`. -/
def downloadedRows (data : List (List String)) : Nat :=
  data.countP (fun r => decide (r.getD 4 "" = "Downloaded"))

/-- Count of data rows whose Structure field is anything other than
`"Downloaded"`. -/
def missingRows (data : List (List String)) : Nat :=
  data.countP (fun r => !decide (r.getD 4 "" = "Downloaded"))

/-- Detail page on which the CID lookup succeeds: some element, the label
text node, then an anchor whose stripped text is `CID:12345`. -/
def docOk : List Node := [Node.other, Node.text extLabel, Node.anchor " CID:12345 "]

/-- Listing table with one well-formed data row after the header row. -/
def tOk : List (List String) :=
  [["c1", "c2", "c3", "c4"], ["x", "y", " PID1 ", " Name1 "]]

/-- Environment in which every lookup succeeds. -/
def envOk : Env :=
  { listingStatus := 200
    listingTable := some tOk
    detailStatus := fun _ => 200
    detailDoc := fun _ => docOk
    pubchemStatus := fun _ => 200
    pubchemText := fun _ => " CCO "
    structStatus := fun _ => 200
    structBody := fun _ => "molbytes" }

/-- Like `envOk` but the structure file request returns 404. -/
def envNF : Env := { envOk with structStatus := fun _ => 404 }

/-- Like `envOk` but the detail page request returns 404, so the CID lookup
fails for every row. -/
def envC1 : Env := { envOk with detailStatus := fun _ => 404 }

/-- Environment in which every request fails. -/
def envBad : Env :=
  { envOk with
    listingStatus := 404
    detailStatus := fun _ => 404
    pubchemStatus := fun _ => 500
    structStatus := fun _ => 404 }

/-- The row `search_plant` produces from `tOk`'s data row under `envNF`
(structure download fails, so the Hyperlink field is the detail URL). -/
def rowNF : List String :=
  ["PID1", "Name1", "12345", "CCO", "Not found", detailPageUrl "PID1"]

/-- Concrete report input: two well-formed rows, one downloaded and one
missing. -/
def exData : List (List String) :=
  [["IMPHY1", "NameA", "10", "CCO", "Downloaded", ""],
   ["IMPHY2", "NameB", "20", "CC", "Not found", detailPageUrl "IMPHY2"]]

/-! ### List index helper lemmas -/

theorem getD_append_lt {α} (l₁ l₂ : List α) (d : α) :
    ∀ n, n < l₁.length → (l₁ ++ l₂).getD n d = l₁.getD n d := by
  induction l₁ with
  | nil => intro n h; simp at h
  | cons a t ih =>
    intro n h
    cases n with
    | zero => rfl
    | succ m => simpa using ih m (by simpa using h)

theorem getD_append_add {α} (l₁ l₂ : List α) (d : α) (k : Nat) :
    (l₁ ++ l₂).getD (l₁.length + k) d = l₂.getD k d := by
  induction l₁ with
  | nil => simp
  | cons a t ih => simpa [Nat.succ_add] using ih

theorem getD_map_of_lt {α β} (g : α → β) (r : List α) (d : α) (d' : β) :
    ∀ n, n < r.length → (r.map g).getD n d' = g (r.getD n d) := by
  induction r with
  | nil => intro n h; simp at h
  | cons a t ih =>
    intro n h
    cases n with
    | zero => rfl
    | succ m => simpa using ih m (by simpa using h)

/-! ### Lemmas about the sheet construction -/

theorem length_dataCellRows (l : List (List String)) :
    ∀ i, (dataCellRows i l).length = l.length := by
  induction l with
  | nil => intro i; rfl
  | cons r rs ih => intro i; simp [dataCellRows, ih]

theorem getD_dataCellRows (l : List (List String)) :
    ∀ i j, j < l.length →
      (dataCellRows i l).getD j [] = dataRowCells (i + j) (l.getD j []) := by
  induction l with
  | nil => intro i j h; simp at h
  | cons r rs ih =>
    intro i j h
    cases j with
    | zero => rfl
    | succ m =>
      have := ih (i + 1) m (by simpa using h)
      simpa [dataCellRows, Nat.add_assoc, Nat.add_comm 1 m] using this

theorem length_onDataRows (f : List Cell → List Cell) (l : List (List Cell)) :
    (onDataRows f l).length = l.length := by
  cases l <;> simp [onDataRows]

theorem countP_structCell (q : CellVal → Bool) (l : List (List String))
    (hwf : ∀ r ∈ l, r.length = 6) :
    ∀ i, (dataCellRows i l).countP (fun row => q (structCellValue row)) =
      l.countP (fun r => q (CellVal.str (r.getD 4 ""))) := by
  induction l with
  | nil => intro i; rfl
  | cons r rs ih =>
    intro i
    have h6 : r.length = 6 := hwf r (by simp)
    have hs : structCellValue (dataRowCells i r) = CellVal.str (r.getD 4 "") := by
      have h4 : (4 : Nat) < r.length := by omega
      simp only [structCellValue, dataRowCells, List.getD_cons_succ]
      rw [getD_map_of_lt (fun s => plainCell (.str s)) r "" emptyCell 4 h4]
      rfl
    simp [dataCellRows, List.countP_cons, hs,
      ih (fun x hx => hwf x (by simp [hx])) (i + 1)]

theorem save_to_excel_eq (data : List (List String)) :
    save_to_excel data =
      (headerCellRow ::
        ((dataCellRows 0 data).map (updateAt 5 applyFill)).map (updateAt 6 applyHyperlink)) ++
      [[],
       [plainCell (.str "No of compounds downloaded:"),
        plainCell (.num ((dataCellRows 0 data).countP
          (fun r => decide (structCellValue r = CellVal.str "Downloaded"))))],
       [plainCell (.str "No of missing compounds:"),
        plainCell (.num ((dataCellRows 0 data).countP
          (fun r => !decide (structCellValue r = CellVal.str "Downloaded"))))],
       [plainCell (.str "Total no of compounds:"),
        plainCell (.num
          ((dataCellRows 0 data).countP
            (fun r => decide (structCellValue r = CellVal.str "Downloaded")) +
           (dataCellRows 0 data).countP
            (fun r => !decide (structCellValue r = CellVal.str "Downloaded"))))]] := by
  simp [save_to_excel, sheetAfterToExcel, onDataRows]

theorem length_save_to_excel (data : List (List String)) :
    (save_to_excel data).length = data.length + 5 := by
  rw [save_to_excel_eq]
  simp [length_dataCellRows]

theorem save_to_excel_headerRow (data : List (List String)) :
    (save_to_excel data).getD 0 [] = headerCellRow := by
  rw [save_to_excel_eq]
  rfl

theorem save_to_excel_dataRow (data : List (List String)) (i : Nat)
    (h : i < data.length) :
    (save_to_excel data).getD (i + 1) [] =
      updateAt 6 applyHyperlink (updateAt 5 applyFill (dataRowCells i (data.getD i []))) := by
  rw [save_to_excel_eq]
  rw [getD_append_lt _ _ _ (i + 1)
    (by simp [length_dataCellRows]; omega)]
  simp only [List.getD_cons_succ]
  rw [getD_map_of_lt (updateAt 6 applyHyperlink) _ [] [] i
    (by simp [length_dataCellRows]; omega)]
  rw [getD_map_of_lt (updateAt 5 applyFill) _ [] [] i
    (by simp [length_dataCellRows]; omega)]
  rw [getD_dataCellRows data 0 i h]
  simp

theorem save_to_excel_summaryRows (data : List (List String))
    (hwf : ∀ r ∈ data, r.length = 6) :
    (save_to_excel data).getD (data.length + 1) [] = [] ∧
    (save_to_excel data).getD (data.length + 2) [] =
      [plainCell (.str "No of compounds downloaded:"),
       plainCell (.num (downloadedRows data))] ∧
    (save_to_excel data).getD (data.length + 3) [] =
      [plainCell (.str "No of missing compounds:"),
       plainCell (.num (missingRows data))] ∧
    (save_to_excel data).getD (data.length + 4) [] =
      [plainCell (.str "Total no of compounds:"),
       plainCell (.num (downloadedRows data + missingRows data))] := by
  have hcd : (dataCellRows 0 data).countP
      (fun r => decide (structCellValue r = CellVal.str "Downloaded")) =
      downloadedRows data := by
    have h := countP_structCell (fun v => decide (v = CellVal.str "Downloaded")) data hwf 0
    simp only [CellVal.str.injEq] at h
    simpa [downloadedRows] using h
  have hcm : (dataCellRows 0 data).countP
      (fun r => !decide (structCellValue r = CellVal.str "Downloaded")) =
      missingRows data := by
    have h := countP_structCell (fun v => !decide (v = CellVal.str "Downloaded")) data hwf 0
    simp only [CellVal.str.injEq] at h
    simpa [missingRows] using h
  have hlen : (headerCellRow ::
      ((dataCellRows 0 data).map (updateAt 5 applyFill)).map
        (updateAt 6 applyHyperlink)).length = data.length + 1 := by
    simp [length_dataCellRows]
  refine ⟨?_, ?_, ?_, ?_⟩
  · rw [save_to_excel_eq]
    have := getD_append_add (headerCellRow ::
      ((dataCellRows 0 data).map (updateAt 5 applyFill)).map (updateAt 6 applyHyperlink))
      [[],
       [plainCell (.str "No of compounds downloaded:"),
        plainCell (.num ((dataCellRows 0 data).countP
          (fun r => decide (structCellValue r = CellVal.str "Downloaded"))))],
       [plainCell (.str "No of missing compounds:"),
        plainCell (.num ((dataCellRows 0 data).countP
          (fun r => !decide (structCellValue r = CellVal.str "Downloaded"))))],
       [plainCell (.str "Total no of compounds:"),
        plainCell (.num
          ((dataCellRows 0 data).countP
            (fun r => decide (structCellValue r = CellVal.str "Downloaded")) +
           (dataCellRows 0 data).countP
            (fun r => !decide (structCellValue r = CellVal.str "Downloaded"))))]]
      ([] : List Cell) 0
    rw [hlen] at this
    simpa using this
  · rw [save_to_excel_eq]
    have := getD_append_add (headerCellRow ::
      ((dataCellRows 0 data).map (updateAt 5 applyFill)).map (updateAt 6 applyHyperlink))
      [[],
       [plainCell (.str "No of compounds downloaded:"),
        plainCell (.num ((dataCellRows 0 data).countP
          (fun r => decide (structCellValue r = CellVal.str "Downloaded"))))],
       [plainCell (.str "No of missing compounds:"),
        plainCell (.num ((dataCellRows 0 data).countP
          (fun r => !decide (structCellValue r = CellVal.str "Downloaded"))))],
       [plainCell (.str "Total no of compounds:"),
        plainCell (.num
          ((dataCellRows 0 data).countP
            (fun r => decide (structCellValue r = CellVal.str "Downloaded")) +
           (dataCellRows 0 data).countP
            (fun r => !decide (structCellValue r = CellVal.str "Downloaded"))))]]
      ([] : List Cell) 1
    rw [hlen] at this
    simpa [hcd] using this
  · rw [save_to_excel_eq]
    have := getD_append_add (headerCellRow ::
      ((dataCellRows 0 data).map (updateAt 5 applyFill)).map (updateAt 6 applyHyperlink))
      [[],
       [plainCell (.str "No of compounds downloaded:"),
        plainCell (.num ((dataCellRows 0 data).countP
          (fun r => decide (structCellValue r = CellVal.str "Downloaded"))))],
       [plainCell (.str "No of missing compounds:"),
        plainCell (.num ((dataCellRows 0 data).countP
          (fun r => !decide (structCellValue r = CellVal.str "Downloaded"))))],
       [plainCell (.str "Total no of compounds:"),
        plainCell (.num
          ((dataCellRows 0 data).countP
            (fun r => decide (structCellValue r = CellVal.str "Downloaded")) +
           (dataCellRows 0 data).countP
            (fun r => !decide (structCellValue r = CellVal.str "Downloaded"))))]]
      ([] : List Cell) 2
    rw [hlen] at this
    simpa [hcm] using this
  · rw [save_to_excel_eq]
    have := getD_append_add (headerCellRow ::
      ((dataCellRows 0 data).map (updateAt 5 applyFill)).map (updateAt 6 applyHyperlink))
      [[],
       [plainCell (.str "No of compounds downloaded:"),
        plainCell (.num ((dataCellRows 0 data).countP
          (fun r => decide (structCellValue r = CellVal.str "Downloaded"))))],
       [plainCell (.str "No of missing compounds:"),
        plainCell (.num ((dataCellRows 0 data).countP
          (fun r => !decide (structCellValue r = CellVal.str "Downloaded"))))],
       [plainCell (.str "Total no of compounds:"),
        plainCell (.num
          ((dataCellRows 0 data).countP
            (fun r => decide (structCellValue r = CellVal.str "Downloaded")) +
           (dataCellRows 0 data).countP
            (fun r => !decide (structCellValue r = CellVal.str "Downloaded"))))]]
      ([] : List Cell) 3
    rw [hlen] at this
    simpa [hcd, hcm] using this

/-! ### Lemmas about `search_plant` -/

theorem length_filterMap_eq_countP {α β} (f : α → Option β) (l : List α) :
    (l.filterMap f).length = l.countP (fun a => (f a).isSome) := by
  induction l with
  | nil => rfl
  | cons a t ih =>
    cases h : f a <;> simp [List.filterMap_cons, h, List.countP_cons, ih]

theorem isSome_processListingRow (env : Env) (sf : String) (cols : List String) :
    (processListingRow env sf cols).isSome = keptRow env cols := by
  unfold processListingRow keptRow
  by_cases h3 : 3 < cols.length
  · simp only [if_pos h3, decide_eq_true_eq (p := 3 < cols.length)]
    cases hc : extract_cid env (pyStrip (cols.getD 2 "")) with
    | none => simp [hc, h3]
    | some cid =>
      by_cases he : cid = ""
      · simp [hc, he, h3]
      · simp [hc, he, h3]
  · simp [h3]

theorem search_plant_eq_filterMap (env : Env) (p sf : String)
    (t : List (List String)) (h200 : env.listingStatus = 200)
    (ht : env.listingTable = some t) :
    search_plant env p sf = (t.drop 1).filterMap (processListingRow env sf) := by
  unfold search_plant
  rw [h200, ht]
  simp

theorem processListingRow_shape (env : Env) (sf : String) (cols row : List String)
    (h : processListingRow env sf cols = some row) :
    ∃ identifier nm cid,
      extract_cid env identifier = some cid ∧ cid ≠ "" ∧
      identifier = pyStrip (cols.getD 2 "") ∧
      row = [identifier, nm, cid, get_smiles_from_pubchem env cid,
             (download_structure env identifier sf).1,
             if (download_structure env identifier sf).1 = "Not found" then
               detailPageUrl identifier
             else ""] := by
  unfold processListingRow at h
  by_cases h3 : 3 < cols.length
  · rw [if_pos h3] at h
    dsimp only at h
    cases hc : extract_cid env (pyStrip (cols.getD 2 "")) with
    | none => rw [hc] at h; exact absurd h (by simp)
    | some cid =>
      rw [hc] at h
      dsimp only at h
      by_cases he : cid = ""
      · rw [if_pos he] at h; exact absurd h (by simp)
      · rw [if_neg he] at h
        refine ⟨pyStrip (cols.getD 2 ""), pyStrip (cols.getD 3 ""), cid, hc, he, rfl, ?_⟩
        simpa using h.symm
  · rw [if_neg h3] at h; exact absurd h (by simp)

theorem mem_search_plant (env : Env) (p sf : String) (row : List String)
    (h : row ∈ search_plant env p sf) :
    ∃ cols, processListingRow env sf cols = some row := by
  unfold search_plant at h
  by_cases h200 : env.listingStatus ≠ 200
  · rw [if_pos h200] at h; simp at h
  · rw [if_neg h200] at h
    cases ht : env.listingTable with
    | none => rw [ht] at h; simp at h
    | some t =>
      rw [ht] at h
      simp only [List.mem_filterMap] at h
      obtain ⟨cols, _, hc⟩ := h
      exact ⟨cols, hc⟩

/-- Combined row-shape fact: every row `search_plant` returns comes from a
listing row kept by the loop, so it is the 6-field list built there, with a
non-empty CID. -/
theorem search_plant_row_shape (env : Env) (p sf : String) (row : List String)
    (h : row ∈ search_plant env p sf) :
    ∃ identifier nm cid,
      extract_cid env identifier = some cid ∧ cid ≠ "" ∧
      row = [identifier, nm, cid, get_smiles_from_pubchem env cid,
             (download_structure env identifier sf).1,
             if (download_structure env identifier sf).1 = "Not found" then
               detailPageUrl identifier
             else ""] := by
  obtain ⟨cols, hc⟩ := mem_search_plant env p sf row h
  obtain ⟨identifier, nm, cid, h1, h2, _, h4⟩ :=
    processListingRow_shape env sf cols row hc
  exact ⟨identifier, nm, cid, h1, h2, h4⟩

/-- The status string `download_structure` returns is always `"Downloaded"`
or `"Not found"`. -/
theorem download_structure_status (env : Env) (identifier sf : String) :
    (download_structure env identifier sf).1 = "Downloaded" ∨
    (download_structure env identifier sf).1 = "Not found" := by
  unfold download_structure
  by_cases h : env.structStatus identifier = 200
  · left; rw [if_pos h]
  · right; rw [if_neg h]

/-! ### Row-shape helpers -/

theorem exists_six_fields (r : List String) (h : r.length = 6) :
    ∃ a b c d e g, r = [a, b, c, d, e, g] := by
  match r, h with
  | [a, b, c, d, e, g], _ => exact ⟨a, b, c, d, e, g, rfl⟩

theorem dataRow_values (i : Nat) (a b c d e g : String) :
    (updateAt 6 applyHyperlink (updateAt 5 applyFill
        (dataRowCells i [a, b, c, d, e, g]))).map Cell.value =
      [CellVal.num (i + 1), .str a, .str b, .str c, .str d, .str e,
       if g = "" then CellVal.str "" else CellVal.str "Link"] := by
  by_cases hg : g = "" <;>
    simp [dataRowCells, updateAt, applyFill, applyHyperlink, pyTruthyCell,
      plainCell, hg, apply_ite Cell.value]

theorem countP_add_countP_not {α} (p : α → Bool) (l : List α) :
    l.countP p + l.countP (fun a => !p a) = l.length := by
  induction l with
  | nil => rfl
  | cons a t ih => cases h : p a <;> simp [List.countP_cons, h] <;> omega

/-! ### Claim theorems -/

/-- Claim C4: for every CID, `get_smiles_from_pubchem` returns exactly the
sentinel `"N/A"` when the HTTP response status is not 200, and otherwise
returns the response body with surrounding whitespace trimmed. -/
theorem claim_C4 (env : Env) (cid : String) :
    (env.pubchemStatus cid ≠ 200 → get_smiles_from_pubchem env cid = "N/A") ∧
    (env.pubchemStatus cid = 200 →
      get_smiles_from_pubchem env cid = pyStrip (env.pubchemText cid)) := by
  constructor
  · intro h; simp [get_smiles_from_pubchem, h]
  · intro h; simp [get_smiles_from_pubchem, h]

/-- Witness for C4: under `envBad` (status 500) the result is `"N/A"`, and
under `envOk` (status 200, body `" CCO "`) it is the trimmed body `"CCO"`. -/
theorem claim_C4_witness :
    (envBad.pubchemStatus "10" ≠ 200 ∧ get_smiles_from_pubchem envBad "10" = "N/A") ∧
    (envOk.pubchemStatus "10" = 200 ∧ get_smiles_from_pubchem envOk "10" = "CCO") :=
  ⟨⟨by decide, (claim_C4 envBad "10").1 (by decide)⟩,
   ⟨rfl, ((claim_C4 envOk "10").2 rfl).trans (by decide)⟩⟩

/-- Claim C5: for every identifier and destination folder,
`download_structure` on a 200 response writes the response bytes to
`<identifier>_3D.mol` in the destination folder and returns `"Downloaded"`;
on any other status it writes no file and returns `"Not found"`. -/
theorem claim_C5 (env : Env) (identifier sf : String) :
    (env.structStatus identifier = 200 →
      download_structure env identifier sf =
        ("Downloaded",
         some ⟨pathJoin sf (identifier ++ "_3D.mol"), env.structBody identifier⟩)) ∧
    (env.structStatus identifier ≠ 200 →
      download_structure env identifier sf = ("Not found", none)) := by
  constructor <;> intro h <;> simp [download_structure, h]

/-- Witness for C5: under `envOk` the file `out/PID1_3D.mol` is written with
the response bytes and the status is `"Downloaded"`; under `envBad` (404)
nothing is written and the status is `"Not found"`. -/
theorem claim_C5_witness :
    (envOk.structStatus "PID1" = 200 ∧
      download_structure envOk "PID1" "out" =
        ("Downloaded", some ⟨"out/PID1_3D.mol", "molbytes"⟩)) ∧
    (envBad.structStatus "PID1" ≠ 200 ∧
      download_structure envBad "PID1" "out" = ("Not found", none)) :=
  ⟨⟨rfl, ((claim_C5 envOk "PID1" "out").1 rfl).trans (by decide)⟩,
   ⟨by decide, (claim_C5 envBad "PID1" "out").2 (by decide)⟩⟩

/-- Claim C3: `extract_cid` returns `none` when the HTTP status is not 200;
returns `none` when the fixed label text node, the anchor following it, or a
`CID:<digits>` pattern match is absent from the fetched page; and when the
anchor found after the label carries the token `CID:12345` (stripped anchor
text `"CID:12345"`) it returns the digit string `"12345"`. -/
theorem claim_C3 (env : Env) (identifier : String) :
    (env.detailStatus identifier ≠ 200 → extract_cid env identifier = none) ∧
    (findAfterString (env.detailDoc identifier) extLabel = none →
      extract_cid env identifier = none) ∧
    (∀ rest, findAfterString (env.detailDoc identifier) extLabel = some rest →
      firstAnchor rest = none → extract_cid env identifier = none) ∧
    (∀ rest t, findAfterString (env.detailDoc identifier) extLabel = some rest →
      firstAnchor rest = some t → cidSearch (pyStrip t) = none →
      extract_cid env identifier = none) ∧
    (∀ rest t, env.detailStatus identifier = 200 →
      findAfterString (env.detailDoc identifier) extLabel = some rest →
      firstAnchor rest = some t → pyStrip t = "CID:12345" →
      extract_cid env identifier = some "12345") := by
  refine ⟨?_, ?_, ?_, ?_, ?_⟩
  · intro h; simp [extract_cid, h]
  · intro h
    unfold extract_cid
    rw [h]
    simp
  · intro rest hr ha
    unfold extract_cid
    rw [hr]
    dsimp only
    rw [ha]
    simp
  · intro rest t hr ha hc
    unfold extract_cid
    rw [hr]
    dsimp only
    rw [ha]
    dsimp only
    rw [hc]
    simp
  · intro rest t h200 hr ha htrim
    unfold extract_cid
    rw [hr]
    dsimp only
    rw [ha]
    dsimp only
    rw [htrim, h200]
    simp
    rfl

/-- Witness for C3: under `envBad` (404 detail page) the CID is `none`;
under `envOk`, whose detail page carries the label followed by an anchor
with stripped text `CID:12345`, the CID is `"12345"`. -/
theorem claim_C3_witness :
    (envBad.detailStatus "PID1" ≠ 200 ∧ extract_cid envBad "PID1" = none) ∧
    extract_cid envOk "PID1" = some "12345" :=
  ⟨⟨by decide, (claim_C3 envBad "PID1").1 (by decide)⟩,
   (claim_C3 envOk "PID1").2.2.2.2 [Node.anchor " CID:12345 "] " CID:12345 "
     rfl (by decide) (by decide) (by decide)⟩

/-- Claim C8 fails as stated: `#` requires percent-encoding, but the code
only replaces spaces with `%20`, so for the plant name `a#b` the request URL
is not the base path followed by the URL-encoded name (the `#` is left
raw where the encoding would give `a%23b`). -/
theorem claim_C8_counterexample :
    requiresPercentEncoding '#' = true ∧
    urlencodeSpec "a#b" = "a%23b" ∧
    plantPageUrl "a#b" ≠ plantBase ++ urlencodeSpec "a#b" := by decide

/-- Claim C8, amended: the listing-page request URL is the fixed base path
followed by the plant name with each space replaced by `%20` and every other
character left unchanged; hence for plant names in which the only characters
requiring percent-encoding are spaces, the URL does equal the base path
followed by the URL-encoded name. -/
theorem claim_C8 (plant_name : String)
    (h : ∀ c ∈ plant_name.data, requiresPercentEncoding c = true → c = ' ') :
    plantPageUrl plant_name = plantBase ++ urlencodeSpec plant_name := by
  unfold plantPageUrl urlencodeSpec pyReplaceSpace
  congr 2
  apply List.map_congr_left
  intro c hc
  by_cases hsp : c = ' '
  · subst hsp; decide
  · have hreq : requiresPercentEncoding c = false := by
      cases hq : requiresPercentEncoding c
      · rfl
      · exact absurd (h c hc hq) hsp
    simp [hsp, hreq]

/-- Witness for C8 (amended): the only encodable characters of
`"Ocimum sanctum"` are spaces, and the request URL equals the base followed
by the URL-encoded name. -/
theorem claim_C8_witness :
    (∀ c ∈ ("Ocimum sanctum").data, requiresPercentEncoding c = true → c = ' ') ∧
    plantPageUrl "Ocimum sanctum" = plantBase ++ urlencodeSpec "Ocimum sanctum" :=
  ⟨by decide, claim_C8 "Ocimum sanctum" (by decide)⟩

/-- Claim C1 fails as stated: under `envC1` the listing page (status 200)
has one well-formed data row, but its CID lookup fails (404 detail page) and
`search_plant` omits the row instead of degrading it to sentinel values,
returning 0 rows instead of 1. -/
theorem claim_C1_counterexample :
    envC1.listingStatus = 200 ∧ envC1.listingTable = some tOk ∧
    (tOk.drop 1).countP (fun r => decide (3 < r.length)) = 1 ∧
    (search_plant envC1 "Plant" "dir").length = 0 := by decide

/-- Claim C1, amended: for a 200 listing response with a table,
`search_plant` produces, in document order, exactly one row per listing row
after the header that both has at least 4 columns and whose CID lookup
yields a non-`None`, non-empty CID (`keptRow`); rows whose CID lookup fails
are omitted entirely, while `"N/A"` SMILES and `"Not found"` structure
results only degrade fields of a kept row (`processListingRow` does not
consult them to decide inclusion). -/
theorem claim_C1 (env : Env) (p sf : String) (t : List (List String))
    (h200 : env.listingStatus = 200) (ht : env.listingTable = some t) :
    search_plant env p sf = (t.drop 1).filterMap (processListingRow env sf) ∧
    (search_plant env p sf).length = (t.drop 1).countP (keptRow env) := by
  have he := search_plant_eq_filterMap env p sf t h200 ht
  refine ⟨he, ?_⟩
  rw [he, length_filterMap_eq_countP]
  simp only [isSome_processListingRow]

/-- Witness for C1 (amended): under `envOk` the listing's one well-formed
row is kept, and the output is the filterMap of the rows after the header. -/
theorem claim_C1_witness :
    envOk.listingStatus = 200 ∧ envOk.listingTable = some tOk ∧
    (search_plant envOk "p" "sf" =
       (tOk.drop 1).filterMap (processListingRow envOk "sf") ∧
     (search_plant envOk "p" "sf").length = (tOk.drop 1).countP (keptRow envOk)) :=
  ⟨rfl, rfl, claim_C1 envOk "p" "sf" tOk rfl rfl⟩

/-- Claim C2 fails as stated: for the 2-row input `exData` the sheet
written by `save_to_excel` spans 7 rows, not 2 + 1 + 3 = 6 — because
`summary_row = ws.max_row + 2`, a blank row sits between the last data row
and the first summary row. -/
theorem claim_C2_counterexample :
    (∀ r ∈ exData, r.length = 6) ∧
    (save_to_excel exData).getD (exData.length + 1) [] = [] ∧
    (save_to_excel exData).length ≠ exData.length + 4 := by decide

/-- Claim C2, amended: for every input list of N well-formed rows the sheet
contains N + 1 + 1 + 3 rows — N data rows, 1 header row, 1 blank row, 3
summary rows — the three summary rows being the last three rows, separated
from the last data row by exactly one blank row. -/
theorem claim_C2 (data : List (List String)) (hwf : ∀ r ∈ data, r.length = 6) :
    (save_to_excel data).length = data.length + 5 ∧
    (save_to_excel data).getD (data.length + 1) [] = [] ∧
    ((save_to_excel data).getD (data.length + 2) []).getD 0 emptyCell =
      plainCell (.str "No of compounds downloaded:") ∧
    ((save_to_excel data).getD (data.length + 3) []).getD 0 emptyCell =
      plainCell (.str "No of missing compounds:") ∧
    ((save_to_excel data).getD (data.length + 4) []).getD 0 emptyCell =
      plainCell (.str "Total no of compounds:") := by
  obtain ⟨h1, h2, h3, h4⟩ := save_to_excel_summaryRows data hwf
  exact ⟨length_save_to_excel data, h1,
    by rw [h2]; rfl, by rw [h3]; rfl, by rw [h4]; rfl⟩

/-- Witness for C2 (amended): the sheet for the 2-row input `exData` has 7
rows, a blank row at sheet row 4 and the three summary labels in rows
5–7. -/
theorem claim_C2_witness :
    (∀ r ∈ exData, r.length = 6) ∧
    ((save_to_excel exData).length = exData.length + 5 ∧
     (save_to_excel exData).getD (exData.length + 1) [] = [] ∧
     ((save_to_excel exData).getD (exData.length + 2) []).getD 0 emptyCell =
       plainCell (.str "No of compounds downloaded:") ∧
     ((save_to_excel exData).getD (exData.length + 3) []).getD 0 emptyCell =
       plainCell (.str "No of missing compounds:") ∧
     ((save_to_excel exData).getD (exData.length + 4) []).getD 0 emptyCell =
       plainCell (.str "Total no of compounds:")) :=
  ⟨by decide, claim_C2 exData (by decide)⟩

/-- Claim C6: in the sheet written by `save_to_excel`, the "No of compounds
downloaded" summary value equals the number of data rows whose Structure
field is `"Downloaded"`, the "No of missing compounds" value equals the
number of data rows with any other Structure value, and the "Total no of
compounds" value equals their sum, which is the number of data rows. -/
theorem claim_C6 (data : List (List String)) (hwf : ∀ r ∈ data, r.length = 6) :
    (((save_to_excel data).getD (data.length + 2) []).getD 1 emptyCell).value =
      .num (data.countP (fun r => decide (r.getD 4 "" = "Downloaded"))) ∧
    (((save_to_excel data).getD (data.length + 3) []).getD 1 emptyCell).value =
      .num (data.countP (fun r => !decide (r.getD 4 "" = "Downloaded"))) ∧
    (((save_to_excel data).getD (data.length + 4) []).getD 1 emptyCell).value =
      .num (data.countP (fun r => decide (r.getD 4 "" = "Downloaded")) +
            data.countP (fun r => !decide (r.getD 4 "" = "Downloaded"))) ∧
    data.countP (fun r => decide (r.getD 4 "" = "Downloaded")) +
      data.countP (fun r => !decide (r.getD 4 "" = "Downloaded")) = data.length := by
  obtain ⟨_, h2, h3, h4⟩ := save_to_excel_summaryRows data hwf
  exact ⟨by rw [h2]; rfl, by rw [h3]; rfl, by rw [h4]; rfl,
    countP_add_countP_not _ data⟩

/-- Witness for C6: in the sheet for `exData` (one downloaded row, one
missing row) the summary values are 1, 1 and 2, and 1 + 1 is the number of
data rows. -/
theorem claim_C6_witness :
    (∀ r ∈ exData, r.length = 6) ∧
    ((((save_to_excel exData).getD (exData.length + 2) []).getD 1 emptyCell).value =
       .num (exData.countP (fun r => decide (r.getD 4 "" = "Downloaded"))) ∧
     (((save_to_excel exData).getD (exData.length + 3) []).getD 1 emptyCell).value =
       .num (exData.countP (fun r => !decide (r.getD 4 "" = "Downloaded"))) ∧
     (((save_to_excel exData).getD (exData.length + 4) []).getD 1 emptyCell).value =
       .num (exData.countP (fun r => decide (r.getD 4 "" = "Downloaded")) +
             exData.countP (fun r => !decide (r.getD 4 "" = "Downloaded"))) ∧
     exData.countP (fun r => decide (r.getD 4 "" = "Downloaded")) +
       exData.countP (fun r => !decide (r.getD 4 "" = "Downloaded")) = exData.length) :=
  ⟨by decide, claim_C6 exData (by decide)⟩

/-- Claim C7: `save_to_excel` writes the columns in the exact order Sl No,
Phytochemical Identifier, Phytochemical Name, CID, Canonical SMILES,
Structure, Hyperlink, and each data row carries the 1-based serial number of
its position in the input, the row for input index `i` being sheet row
`i + 2` — input order is preserved. (The Hyperlink cell's visible value is
the original field when empty and the post-processed label `"Link"`
otherwise.) -/
theorem claim_C7 (data : List (List String)) (hwf : ∀ r ∈ data, r.length = 6) :
    ((save_to_excel data).getD 0 []).map Cell.value =
      [.str "Sl No", .str "Phytochemical Identifier", .str "Phytochemical Name",
       .str "CID", .str "Canonical SMILES", .str "Structure", .str "Hyperlink"] ∧
    ∀ i, i < data.length →
      ((save_to_excel data).getD (i + 1) []).map Cell.value =
        CellVal.num (i + 1) :: ((data.getD i []).take 5).map CellVal.str ++
          [if (data.getD i []).getD 5 "" = "" then CellVal.str ""
           else CellVal.str "Link"] := by
  constructor
  · rw [save_to_excel_headerRow]; rfl
  · intro i hi
    rw [save_to_excel_dataRow data i hi]
    have hmem : data.getD i [] ∈ data := by
      rw [List.getD_eq_getElem data [] hi]; exact List.getElem_mem hi
    obtain ⟨a, b, c, d, e, g, hr⟩ := exists_six_fields _ (hwf _ hmem)
    rw [hr, dataRow_values]
    simp

/-- Witness for C7: for `exData` the header row is in the stated order, and
data rows 1 and 2 carry serial numbers 1 and 2 with the fields of input
rows 0 and 1. -/
theorem claim_C7_witness :
    (∀ r ∈ exData, r.length = 6) ∧
    (((save_to_excel exData).getD 0 []).map Cell.value =
       [.str "Sl No", .str "Phytochemical Identifier", .str "Phytochemical Name",
        .str "CID", .str "Canonical SMILES", .str "Structure", .str "Hyperlink"]) ∧
    (0 < exData.length ∧
      ((save_to_excel exData).getD 1 []).map Cell.value =
        CellVal.num 1 :: ((exData.getD 0 []).take 5).map CellVal.str ++
          [if (exData.getD 0 []).getD 5 "" = "" then CellVal.str ""
           else CellVal.str "Link"]) :=
  ⟨by decide, (claim_C7 exData (by decide)).1,
   by decide, (claim_C7 exData (by decide)).2 0 (by decide)⟩

theorem dataRow_cidCell (i : Nat) (a b c d e g : String) :
    ((updateAt 6 applyHyperlink (updateAt 5 applyFill
        (dataRowCells i [a, b, c, d, e, g]))).getD 3 emptyCell).value =
      CellVal.str c := rfl

theorem dataRow_structCell (i : Nat) (a b c d e g : String) :
    (updateAt 6 applyHyperlink (updateAt 5 applyFill
        (dataRowCells i [a, b, c, d, e, g]))).getD 5 emptyCell =
      applyFill (plainCell (.str e)) := rfl

theorem dataRow_hyperCell (i : Nat) (a b c d e g : String) :
    (updateAt 6 applyHyperlink (updateAt 5 applyFill
        (dataRowCells i [a, b, c, d, e, g]))).getD 6 emptyCell =
      applyHyperlink (plainCell (.str g)) := rfl

theorem detailPageUrl_ne_empty (identifier : String) :
    detailPageUrl identifier ≠ "" := by
  intro h
  have hl : (detailPageUrl identifier).length = 0 := by rw [h]; rfl
  rw [detailPageUrl, String.length_append] at hl
  have hb : ("https://cb.imsc.res.in/imppat/phytochemical-detailedpage/").length = 57 := by
    decide
  omega

/-- Claim C9: every row returned by `search_plant` has a non-null, non-empty
CID field (index 2 of the 6-field row) — rows whose CID lookup fails are
excluded before SMILES lookup, structure download and reporting — and hence
every data row of the written report has a non-empty CID cell. -/
theorem claim_C9 (env : Env) (p sf : String) :
    (∀ row ∈ search_plant env p sf, row.length = 6 ∧ row.getD 2 "" ≠ "") ∧
    (∀ i, i < (search_plant env p sf).length →
      ∃ s, s ≠ "" ∧
        (((save_to_excel (search_plant env p sf)).getD (i + 1) []).getD 3
          emptyCell).value = CellVal.str s) := by
  have hrow : ∀ row ∈ search_plant env p sf, row.length = 6 ∧ row.getD 2 "" ≠ "" := by
    intro row hm
    obtain ⟨identifier, nm, cid, _, hne, hr⟩ := search_plant_row_shape env p sf row hm
    subst hr
    exact ⟨rfl, hne⟩
  refine ⟨hrow, ?_⟩
  intro i hi
  rw [save_to_excel_dataRow _ i hi]
  have hmem : (search_plant env p sf).getD i [] ∈ search_plant env p sf := by
    rw [List.getD_eq_getElem _ [] hi]; exact List.getElem_mem hi
  obtain ⟨identifier, nm, cid, _, hne, hr⟩ := search_plant_row_shape env p sf _ hmem
  rw [hr, dataRow_cidCell]
  exact ⟨cid, hne, rfl⟩

/-- Witness for C9: under `envNF` the single output row `rowNF` has the
non-empty CID `"12345"` at index 2, and the report's first data row has a
non-empty CID cell. -/
theorem claim_C9_witness :
    (rowNF ∈ search_plant envNF "p" "sf" ∧
      rowNF.length = 6 ∧ rowNF.getD 2 "" ≠ "") ∧
    (0 < (search_plant envNF "p" "sf").length ∧
      ∃ s, s ≠ "" ∧
        (((save_to_excel (search_plant envNF "p" "sf")).getD 1 []).getD 3
          emptyCell).value = CellVal.str s) :=
  ⟨⟨by decide, (claim_C9 envNF "p" "sf").1 rowNF (by decide)⟩,
   ⟨by decide, (claim_C9 envNF "p" "sf").2 0 (by decide)⟩⟩

/-- Claim C10: for every row produced by `search_plant`, the Hyperlink field
(index 5) is non-empty iff the row's structure status (index 4) is
`"Not found"`, and when non-empty it equals the detail-page URL of the row's
identifier (index 0); consequently, in the written report every Hyperlink
cell restyled as a `"Hyperlink"` belongs to a data row whose Structure cell
is not `"Downloaded"`. -/
theorem claim_C10 (env : Env) (p sf : String) :
    (∀ row ∈ search_plant env p sf,
      (row.getD 5 "" ≠ "" ↔ row.getD 4 "" = "Not found") ∧
      (row.getD 5 "" ≠ "" → row.getD 5 "" = detailPageUrl (row.getD 0 ""))) ∧
    (∀ i, i < (search_plant env p sf).length →
      (((save_to_excel (search_plant env p sf)).getD (i + 1) []).getD 6
        emptyCell).style = some "Hyperlink" →
      (((save_to_excel (search_plant env p sf)).getD (i + 1) []).getD 5
        emptyCell).value ≠ CellVal.str "Downloaded") := by
  constructor
  · intro row hm
    obtain ⟨identifier, nm, cid, _, hne, hr⟩ := search_plant_row_shape env p sf row hm
    subst hr
    by_cases hst : (download_structure env identifier sf).1 = "Not found"
    · constructor
      · simp only [List.getD]
        rw [if_pos hst]
        simp only [hst]
        exact ⟨fun _ => rfl, fun _ => detailPageUrl_ne_empty identifier⟩
      · intro _
        simp only [List.getD]
        rw [if_pos hst]
        rfl
    · constructor
      · simp only [List.getD]
        rw [if_neg hst]
        simp [hst]
      · intro hcontra
        exfalso
        apply hcontra
        simp only [List.getD]
        rw [if_neg hst]
        rfl
  · intro i hi
    rw [save_to_excel_dataRow _ i hi]
    have hmem : (search_plant env p sf).getD i [] ∈ search_plant env p sf := by
      rw [List.getD_eq_getElem _ [] hi]; exact List.getElem_mem hi
    obtain ⟨identifier, nm, cid, _, hne, hr⟩ := search_plant_row_shape env p sf _ hmem
    rw [hr, dataRow_hyperCell, dataRow_structCell]
    intro hstyle
    by_cases hst : (download_structure env identifier sf).1 = "Not found"
    · simp [applyFill, apply_ite Cell.value, hst, plainCell]
    · exfalso
      rw [if_neg hst] at hstyle
      simp [applyHyperlink, pyTruthyCell, plainCell] at hstyle

/-- Witness for C10: under `envNF` the output row `rowNF` has the
`"Not found"` status and its Hyperlink field is the detail URL; in the
report the restyled Hyperlink cell of data row 1 sits in a row whose
Structure value is not `"Downloaded"`. -/
theorem claim_C10_witness :
    (rowNF ∈ search_plant envNF "p" "sf" ∧
      ((rowNF.getD 5 "" ≠ "" ↔ rowNF.getD 4 "" = "Not found") ∧
       (rowNF.getD 5 "" ≠ "" → rowNF.getD 5 "" = detailPageUrl (rowNF.getD 0 "")))) ∧
    (0 < (search_plant envNF "p" "sf").length ∧
      (((save_to_excel (search_plant envNF "p" "sf")).getD 1 []).getD 6
        emptyCell).style = some "Hyperlink" ∧
      (((save_to_excel (search_plant envNF "p" "sf")).getD 1 []).getD 5
        emptyCell).value ≠ CellVal.str "Downloaded") :=
  ⟨⟨by decide, (claim_C10 envNF "p" "sf").1 rowNF (by decide)⟩,
   ⟨by decide, by decide,
    (claim_C10 envNF "p" "sf").2 0 (by decide) (by decide)⟩⟩

end IMPPAT
